import Mathlib

/-!
Verification of the DAP (Debug Adapter Protocol) client in
`crates/dap/src/client.rs`: the router relay (`handle_recv`), the event
consumption loop (`handle_events`), the request correlator (`request`,
`next_request_id`), the thread-state cache
(`thread_state_by_id`, `update_thread_state_status`), the TCP bootstrap
(`create_tcp_client`) and the runtime-control facade
(`resume`, `step_over`, `step_in`, `step_out`, `step_back`, `restart`,
`pause`).

Wire data that lives outside the reviewed source (the `transport` module's
`Payload`/`Request`/`Response`/`Events` shapes and the `dap_types` schema
types) is modelled from the spec's data model section, as noted on each
definition.
-/

namespace DapClient

/-- JSON values as carried by the protocol (`serde_json::Value`).
`Value::default()` is `Null`, mirrored by `JsonValue.null`; this is the
value `request` substitutes for an absent response body. -/
inductive JsonValue where
  | null
  | bool (b : Bool)
  | num (n : Int)
  | str (s : String)
  | arr (xs : List JsonValue)
  | obj (fields : List (String × JsonValue))

/-- `ThreadStatus` from `client.rs`: `{Running, Stopped, Ended}`, default
`Running`. -/
inductive ThreadStatus where
  | Running
  | Stopped
  | Ended
  deriving DecidableEq, Repr

instance : Inhabited ThreadStatus := ⟨.Running⟩

/-- Modelled from the spec: `StackFrame` is part of the external
`dap_types` wire data model (treated as a given); only its identity
matters to the client code under review. -/
structure StackFrame where
  id : Nat
  name : String
  deriving DecidableEq, Repr

/-- Modelled from the spec: `Scope` from the external `dap_types` wire
data model. -/
structure Scope where
  name : String
  variables_reference : Nat
  deriving DecidableEq, Repr

/-- Modelled from the spec: `Variable` from the external `dap_types` wire
data model. -/
structure Variable where
  name : String
  value : String
  deriving DecidableEq, Repr

/-- `ThreadState` from `client.rs`: status, stack frames, scopes keyed by
stack-frame id, variables keyed by variable reference, and the optional
current stack frame. The Rust `HashMap`s are modelled as association
lists; the source field `variables` is named `variables_by_ref` here
because `variables` is reserved in Lean. -/
structure ThreadState where
  status : ThreadStatus
  stack_frames : List StackFrame
  scopes : List (Nat × List Scope)
  variables_by_ref : List (Nat × List Variable)
  current_stack_frame_id : Option Nat
  deriving DecidableEq, Repr

instance : Inhabited ThreadState :=
  ⟨{ status := .Running, stack_frames := [], scopes := [],
     variables_by_ref := [], current_stack_frame_id := none }⟩

/-- Modelled from the spec: the Transport's decoded Event payload data
(`transport::Events`, outside the reviewed source); the router and the
event loop carry it opaquely. -/
structure Events where
  name : String
  body : Option JsonValue

/-- Modelled from the spec: `Payload::Request(request-data, optional
completion-channel)` from the `transport` module. The single-slot
completion channel is modelled by the flag `back_ch`. -/
structure Request where
  seq : Nat
  command : String
  arguments : Option JsonValue
  back_ch : Bool

/-- Modelled from the spec: `Response(seq, success, optional body,
optional message)` from the `transport` module. -/
structure Response where
  seq : Nat
  success : Bool
  body : Option JsonValue
  message : Option String

/-- `transport::Payload`: the tagged variant over events,
adapter-initiated requests and responses. -/
inductive Payload where
  | event (e : Events)
  | request (r : Request)
  | response (r : Response)

def Payload.isEvent : Payload → Bool
  | .event _ => true
  | _ => false

def Payload.isRequest : Payload → Bool
  | .request _ => true
  | _ => false

def Payload.isResponse : Payload → Bool
  | .response _ => true
  | _ => false

/-- The event data carried by an `Event` payload, if any. -/
def Payload.getEvent : Payload → Option Events
  | .event e => some e
  | _ => none

/-- `DebugAdapterClient::handle_recv`: drains the Transport's inbound
receiver in arrival order and dispatches each payload by kind — `Event`
and `Request` payloads go (unmodified) to the application-facing client
queue (first component), `Response` payloads go back onto the Transport's
outbound sender (second component). -/
def handle_recv : List Payload → List Payload × List Payload
  | [] => ([], [])
  | p :: rest =>
    let out := handle_recv rest
    match p with
    | .event e => (Payload.event e :: out.1, out.2)
    | .response r => (out.1, Payload.response r :: out.2)
    | .request r => (Payload.request r :: out.1, out.2)

/-- `DebugAdapterClient::handle_events`: one loop drains the client queue;
an `Event` payload is handed to the caller-supplied handler, any other
payload hits the `unreachable!()` branch. The result records whether the
loop panicked (first component) and the events passed to the handler, in
order, before termination (second component). -/
def handle_events : List Payload → Bool × List Events
  | [] => (false, [])
  | .event e :: rest =>
    let out := handle_events rest
    (out.1, e :: out.2)
  | _ :: _ => (true, [])

/-- The events the caller-supplied handler receives, end to end: the
router (`handle_recv`) builds the client queue from the wire arrivals and
the event loop (`handle_events`) consumes it. -/
def deliveredEvents (arrivals : List Payload) : List Events :=
  (handle_events (handle_recv arrivals).1).2

/-- All events among the wire arrivals, in arrival order. -/
def eventsOf (arrivals : List Payload) : List Events :=
  arrivals.filterMap Payload.getEvent

/-- The errors `DebugAdapterClient::request` can surface, one constructor
per `anyhow` error site in its body: the outbound send failing, the
completion channel closing with no value (`anyhow!("no response")`), a
transport-level error relayed through the channel, the
`anyhow!("Request failed")` branch for `success = false`, and a serde
decode failure on the response body. -/
inductive DapError where
  | sendFailed
  | noResponse
  | transportError (msg : String)
  | requestFailed (msg : String)
  | decodeError (msg : String)
  deriving DecidableEq, Repr

/-- The resolution tail of `DebugAdapterClient::request` (client.rs lines
244-249), parametric in the serde deserializer `decode` of the operation's
declared result shape `R::Response`: on `success = true` the body — with
`Value::default()` (= `null`) substituted when absent — is fed to the
deserializer; on `success = false` the fixed error
`anyhow!("Request failed")` is returned. -/
def requestResolve {α : Type} (decode : JsonValue → Except String α)
    (resp : Response) : Except DapError α :=
  match resp.success with
  | true =>
    match decode (resp.body.getD JsonValue.null) with
    | .ok a => .ok a
    | .error e => .error (.decodeError e)
  | false => .error (.requestFailed "Request failed")

/-- `DebugAdapterClient::request` after the outbound send, as a function
of what arrives on the completion channel: `none` models the channel
closing with no value, `some r` a relayed transport result. -/
def requestAwait {α : Type} (decode : JsonValue → Except String α)
    (received : Option (Except String Response)) : Except DapError α :=
  match received with
  | none => .error .noResponse
  | some (.error e) => .error (.transportError e)
  | some (.ok resp) => requestResolve decode resp

/-- `AtomicU64::fetch_add(1, Ordering::Relaxed)`: returns the previous
value and stores it plus one, wrapping at 64 bits. -/
def fetchAddRelaxed (c : Nat) : Nat × Nat := (c, (c + 1) % 2 ^ 64)

/-- The value of `request_count` after `n` calls to `next_request_id`,
starting from `AtomicU64::new(0)`. -/
def requestCountAfter : Nat → Nat
  | 0 => 0
  | n + 1 => (fetchAddRelaxed (requestCountAfter n)).2

/-- The seq value `DebugAdapterClient::next_request_id` returns on its
`n`-th call (0-based) within one client's lifetime; `request` stamps this
value into the outgoing `Request` payload. -/
def seqIssued (n : Nat) : Nat := (fetchAddRelaxed (requestCountAfter n)).1

/-- The thread-state map `thread_states: HashMap<u64, ThreadState>`,
modelled as an association list with at most one entry per key. -/
abbrev ThreadStates := List (Nat × ThreadState)

/-- `HashMap::get` on the thread-state map: the entry for `thread_id`, if
one exists. -/
def getThreadState : ThreadStates → Nat → Option ThreadState
  | [], _ => none
  | (k, ts) :: rest, thread_id =>
    if k = thread_id then some ts else getThreadState rest thread_id

/-- `DebugAdapterClient::update_thread_state_status`: `get_mut` on the map
and, only when an entry exists, overwrite its `status` in place; entries
under other keys are untouched and no entry is ever inserted. -/
def update_thread_state_status (m : ThreadStates) (thread_id : Nat)
    (status : ThreadStatus) : ThreadStates :=
  m.map fun kv =>
    if kv.1 = thread_id then (kv.1, { kv.2 with status := status }) else kv

/-- The outcome of Rust's `Option::unwrap`: `panicked` is the aborting
panic on `None`. -/
inductive UnwrapResult (α : Type) where
  | panicked
  | value (a : α)
  deriving DecidableEq, Repr

/-- `DebugAdapterClient::thread_state_by_id`:
`self.thread_states.lock().get(&thread_id).cloned().unwrap()` — the map
lookup is cloned and then unconditionally unwrapped, so a missing entry
panics. -/
def thread_state_by_id (m : ThreadStates) (thread_id : Nat) :
    UnwrapResult ThreadState :=
  match getThreadState m thread_id with
  | some ts => .value ts
  | none => .panicked

/-- Modelled from the spec: `SteppingGranularity` from the external
`dap_types` wire data model. -/
inductive SteppingGranularity where
  | Statement
  | Line
  | Instruction
  deriving DecidableEq, Repr

/-- Modelled from the spec: `ContinueArguments` from `dap_types` — the
argument shape of the protocol's `continue` request (no granularity
field exists on this shape). -/
structure ContinueArguments where
  thread_id : Nat
  single_thread : Option Bool
  deriving DecidableEq, Repr

/-- Modelled from the spec: `NextArguments` from `dap_types` — the
argument shape of the protocol's `next` (step over) request. -/
structure NextArguments where
  thread_id : Nat
  granularity : Option SteppingGranularity
  single_thread : Option Bool
  deriving DecidableEq, Repr

/-- Modelled from the spec: `StepInArguments` from `dap_types`. -/
structure StepInArguments where
  thread_id : Nat
  target_id : Option Nat
  granularity : Option SteppingGranularity
  single_thread : Option Bool
  deriving DecidableEq, Repr

/-- Modelled from the spec: `StepOutArguments` from `dap_types`. -/
structure StepOutArguments where
  thread_id : Nat
  granularity : Option SteppingGranularity
  single_thread : Option Bool
  deriving DecidableEq, Repr

/-- Modelled from the spec: `StepBackArguments` from `dap_types`. -/
structure StepBackArguments where
  thread_id : Nat
  single_thread : Option Bool
  granularity : Option SteppingGranularity
  deriving DecidableEq, Repr

/-- Modelled from the spec: `PauseArguments` from `dap_types` — only the
thread id (no granularity or single-thread field exists on this shape). -/
structure PauseArguments where
  thread_id : Nat
  deriving DecidableEq, Repr

/-- The typed protocol request a runtime-control facade method issues
through `request::<R>(...)`: one constructor per `dap_types` request
marker type used by the facade, carrying that operation's argument
shape. -/
inductive SentRequest where
  | Continue (args : ContinueArguments)
  | Next (args : NextArguments)
  | StepIn (args : StepInArguments)
  | StepOut (args : StepOutArguments)
  | StepBack (args : StepBackArguments)
  | Pause (args : PauseArguments)
  deriving DecidableEq, Repr

/-- Modelled from the spec: `R::COMMAND` of each `dap_types` request
marker type — the protocol verb the request is sent under (the spec's
operation catalog: continue, next, stepIn, stepOut, stepBack, pause). -/
def SentRequest.command : SentRequest → String
  | .Continue _ => "continue"
  | .Next _ => "next"
  | .StepIn _ => "stepIn"
  | .StepOut _ => "stepOut"
  | .StepBack _ => "stepBack"
  | .Pause _ => "pause"

/-- The thread id an issued runtime-control request is scoped to. -/
def SentRequest.threadId : SentRequest → Nat
  | .Continue a => a.thread_id
  | .Next a => a.thread_id
  | .StepIn a => a.thread_id
  | .StepOut a => a.thread_id
  | .StepBack a => a.thread_id
  | .Pause a => a.thread_id

/-- `DebugAdapterClient::resume`: `request::<Continue>` with the given
thread id and `single_thread: Some(true)`. -/
def resume (thread_id : Nat) : SentRequest :=
  .Continue { thread_id := thread_id, single_thread := some true }

/-- `DebugAdapterClient::step_over`: `request::<Next>` with statement
granularity and `single_thread: Some(true)`. -/
def step_over (thread_id : Nat) : SentRequest :=
  .Next { thread_id := thread_id, granularity := some .Statement,
          single_thread := some true }

/-- `DebugAdapterClient::step_in`: `request::<StepIn>` with no target,
statement granularity and `single_thread: Some(true)`. -/
def step_in (thread_id : Nat) : SentRequest :=
  .StepIn { thread_id := thread_id, target_id := none,
            granularity := some .Statement, single_thread := some true }

/-- `DebugAdapterClient::step_out`: `request::<StepOut>` with statement
granularity and `single_thread: Some(true)`. -/
def step_out (thread_id : Nat) : SentRequest :=
  .StepOut { thread_id := thread_id, granularity := some .Statement,
             single_thread := some true }

/-- `DebugAdapterClient::step_back`: `request::<StepBack>` with statement
granularity and `single_thread: Some(true)`. -/
def step_back (thread_id : Nat) : SentRequest :=
  .StepBack { thread_id := thread_id, single_thread := some true,
              granularity := some .Statement }

/-- `DebugAdapterClient::restart`, exactly as written in client.rs lines
373-381: its body issues `request::<StepBack>(StepBackArguments {...})`,
identical to `step_back`. -/
def restart (thread_id : Nat) : SentRequest :=
  .StepBack { thread_id := thread_id, single_thread := some true,
              granularity := some .Statement }

/-- `DebugAdapterClient::pause`: `request::<Pause>` with only the thread
id. -/
def pause (thread_id : Nat) : SentRequest :=
  .Pause { thread_id := thread_id }

/-- The observable steps of `DebugAdapterClient::create_tcp_client`, in
program order: spawning the adapter process, the fixed background-executor
timer, and a loopback TCP connect to the configured port. -/
inductive BootAction where
  | spawnProc
  | delayMs (ms : Nat)
  | connectLoopback (port : Nat)
  deriving DecidableEq, Repr, BEq

/-- The client value `handle_transport` hands back on success (its fields
beyond the id are irrelevant to the bootstrap claims). -/
structure ClientHandle where
  id : Nat
  deriving DecidableEq, Repr

/-- `DebugAdapterClient::create_tcp_client`, as a function of the two
fallible environment steps it performs: the process spawn and the TCP
connect. It returns the ordered trace of actions it took together with
its result. Spawn failure returns before the timer; otherwise the fixed
1000 ms timer runs, then exactly one connect to `127.0.0.1:port` is
attempted and its failure is returned without retry; on success
`handle_transport` yields the client. -/
def create_tcp_client (id : Nat) (port : Nat)
    (spawnRes : Except String Unit) (connectRes : Except String Unit) :
    List BootAction × Except String ClientHandle :=
  match spawnRes with
  | .error e => ([.spawnProc], .error ("failed to spawn command. " ++ e))
  | .ok _ =>
    match connectRes with
    | .error e =>
      ([.spawnProc, .delayMs 1000, .connectLoopback port], .error e)
    | .ok _ =>
      ([.spawnProc, .delayMs 1000, .connectLoopback port],
       .ok { id := id })

/-- Whether a bootstrap action is a TCP connect attempt. -/
def BootAction.isConnect : BootAction → Bool
  | .connectLoopback _ => true
  | _ => false

/-- The serde deserializer of the empty result shape `()` — the declared
result shape of launch/attach/configurationDone — which accepts exactly
`null` (its empty/default form) and rejects everything else. -/
def decodeUnitShape : JsonValue → Except String Unit
  | .null => .ok ()
  | _ => .error "invalid type: expected null"

/-- A concrete adapter-initiated request payload (a DAP reverse request),
used to exercise the event loop on a non-Event payload. -/
def reverseRequestPayload : Payload :=
  .request { seq := 0, command := "runInTerminal", arguments := none,
             back_ch := false }

end DapClient

namespace DapClient

/-- Unfolding lemma: the router forwards an `Event` payload to the client
queue and recurses. -/
theorem handle_recv_cons_event (e : Events) (ps : List Payload) :
    handle_recv (.event e :: ps) =
      (Payload.event e :: (handle_recv ps).1, (handle_recv ps).2) := rfl

/-- Unfolding lemma: the router sends a `Response` payload back to the
Transport's outbound sender and recurses. -/
theorem handle_recv_cons_response (r : Response) (ps : List Payload) :
    handle_recv (.response r :: ps) =
      ((handle_recv ps).1, Payload.response r :: (handle_recv ps).2) := rfl

/-- Unfolding lemma: the router forwards a `Request` payload to the client
queue and recurses. -/
theorem handle_recv_cons_request (r : Request) (ps : List Payload) :
    handle_recv (.request r :: ps) =
      (Payload.request r :: (handle_recv ps).1, (handle_recv ps).2) := rfl

/-- The router is exactly a partition of the arrivals: non-responses to
the client queue, responses to the outbound sender, both in arrival
order. -/
theorem handle_recv_eq_filter (ps : List Payload) :
    handle_recv ps =
      (ps.filter (fun p => !p.isResponse),
       ps.filter (fun p => p.isResponse)) := by
  induction ps with
  | nil => rfl
  | cons p rest ih =>
    cases p with
    | event e =>
      rw [handle_recv_cons_event, ih]
      simp [Payload.isResponse]
    | response r =>
      rw [handle_recv_cons_response, ih]
      simp [Payload.isResponse]
    | request r =>
      rw [handle_recv_cons_request, ih]
      simp [Payload.isResponse]

/-- The router drops nothing and duplicates nothing: the two output
queues together have exactly the arrivals' length. -/
theorem handle_recv_length (ps : List Payload) :
    (handle_recv ps).1.length + (handle_recv ps).2.length = ps.length := by
  induction ps with
  | nil => rfl
  | cons p rest ih =>
    cases p with
    | event e => rw [handle_recv_cons_event]; simp; omega
    | response r => rw [handle_recv_cons_response]; simp; omega
    | request r => rw [handle_recv_cons_request]; simp; omega

/-- Unfolding lemma: the event loop hands an `Event` payload to the
handler and continues. -/
theorem handle_events_cons_event (e : Events) (ps : List Payload) :
    handle_events (.event e :: ps) =
      ((handle_events ps).1, e :: (handle_events ps).2) := rfl

/-- Unfolding lemma: a `Request` payload at the head of the queue hits
the `unreachable!()` branch — the loop panics having delivered nothing
further. -/
theorem handle_events_cons_request (r : Request) (ps : List Payload) :
    handle_events (.request r :: ps) = (true, []) := rfl

/-- Unfolding lemma: a `Response` payload at the head of the queue hits
the `unreachable!()` branch. -/
theorem handle_events_cons_response (r : Response) (ps : List Payload) :
    handle_events (.response r :: ps) = (true, []) := rfl

/-- End to end, an `Event` arrival at the head is delivered first. -/
theorem deliveredEvents_cons_event (e : Events) (ps : List Payload) :
    deliveredEvents (.event e :: ps) = e :: deliveredEvents ps := by
  simp [deliveredEvents, handle_recv_cons_event, handle_events_cons_event]

/-- A `Response` arrival never reaches the client queue, so delivery is
unaffected. -/
theorem deliveredEvents_cons_response (r : Response) (ps : List Payload) :
    deliveredEvents (.response r :: ps) = deliveredEvents ps := by
  simp [deliveredEvents, handle_recv_cons_response]

/-- A `Request` arrival reaches the client queue first and panics the
loop: nothing is delivered. -/
theorem deliveredEvents_cons_request (r : Request) (ps : List Payload) :
    deliveredEvents (.request r :: ps) = [] := by
  simp [deliveredEvents, handle_recv_cons_request, handle_events_cons_request]

/-- The value of the wrapping request counter: after `n` calls it holds
`n` modulo `2 ^ 64`. -/
theorem requestCountAfter_eq (n : Nat) :
    requestCountAfter n = n % 2 ^ 64 := by
  induction n with
  | zero => rfl
  | succ n ih =>
    show (fetchAddRelaxed (requestCountAfter n)).2 = (n + 1) % 2 ^ 64
    rw [ih]
    unfold fetchAddRelaxed
    omega

/-- The seq issued on the `n`-th call is `n` modulo `2 ^ 64`. -/
theorem seqIssued_eq (n : Nat) : seqIssued n = n % 2 ^ 64 := by
  unfold seqIssued fetchAddRelaxed
  exact requestCountAfter_eq n

/-- Claim C1: `thread_state_by_id` on a thread id with no entry does not
return a recoverable failure — the code unconditionally `unwrap`s the map
lookup, so an unseen thread id (here 7, on an empty map) panics,
crashing the program. -/
theorem thread_state_by_id_unseen_panics :
    thread_state_by_id [] 7 = UnwrapResult.panicked := rfl

/-- Claim C2 counterexample: a `success = false` response whose `message`
field carries adapter text resolves to the fixed error
`Request failed`, bit-for-bit identical to the error produced when no
message is present at all — the adapter's message text is discarded, not
carried into the error. -/
theorem request_failure_discards_adapter_message :
    requestResolve decodeUnitShape
        { seq := 5, success := false, body := none,
          message := some "adapter says no" } =
      Except.error (DapError.requestFailed "Request failed") ∧
    requestResolve decodeUnitShape
        { seq := 5, success := false, body := none,
          message := some "adapter says no" } =
      requestResolve decodeUnitShape
        { seq := 5, success := false, body := none, message := none } ∧
    "Request failed" ≠ "adapter says no" :=
  ⟨rfl, rfl, by decide⟩

/-- Claim C2 (amended): every resolved response with `success = false`
surfaces to the caller as a request-failure error, never as a success
value; the error always carries the fixed text `Request failed`,
regardless of the response's `message` field. -/
theorem request_failure_error_is_fixed_text {α : Type}
    (decode : JsonValue → Except String α) (resp : Response)
    (h : resp.success = false) :
    requestResolve decode resp =
      Except.error (DapError.requestFailed "Request failed") := by
  unfold requestResolve
  rw [h]

/-- Witness for the amended C2 theorem at a concrete failed response. -/
theorem request_failure_error_is_fixed_text_witness :
    ({ seq := 5, success := false, body := none,
       message := some "adapter says no" } : Response).success = false ∧
    requestResolve decodeUnitShape
        { seq := 5, success := false, body := none,
          message := some "adapter says no" } =
      Except.error (DapError.requestFailed "Request failed") :=
  ⟨rfl, request_failure_error_is_fixed_text decodeUnitShape _ rfl⟩

/-- Claim C3: the runtime-control facade does not always issue the
protocol request of its own verb — `restart` issues the `stepBack`
request (its body is identical to `step_back`), not a `restart`
request. -/
theorem restart_issues_stepBack_not_restart :
    (restart 1).command = "stepBack" ∧
    restart 1 = step_back 1 ∧
    "stepBack" ≠ "restart" :=
  ⟨rfl, rfl, by decide⟩

/-- Claim C4: a resolved response with `success = true` and an absent
body is deserialized from `Value::default()` (= `null`), the declared
result shape's empty/default form; whenever the shape's deserializer
accepts that form, `request` returns it as a success value, not a decode
error. -/
theorem request_absent_body_decodes_default {α : Type}
    (decode : JsonValue → Except String α) (resp : Response) (a : α)
    (hs : resp.success = true) (hb : resp.body = none)
    (hd : decode JsonValue.null = .ok a) :
    requestResolve decode resp = .ok a := by
  simp [requestResolve, hs, hb, hd]

/-- Witness for C4: the empty result shape `()` on a bodiless success
response. -/
theorem request_absent_body_decodes_default_witness :
    ({ seq := 3, success := true, body := none,
       message := none } : Response).success = true ∧
    ({ seq := 3, success := true, body := none,
       message := none } : Response).body = none ∧
    decodeUnitShape JsonValue.null = .ok () ∧
    requestResolve decodeUnitShape
        { seq := 3, success := true, body := none, message := none } =
      .ok () :=
  ⟨rfl, rfl, rfl,
   request_absent_body_decodes_default decodeUnitShape _ () rfl rfl rfl⟩

/-- Claim C5 counterexample: the seq allocator is a wrapping
`AtomicU64::fetch_add`, so the call numbered `2 ^ 64` returns the same
seq value (0) already returned by call 0 — a later call whose value is
not strictly greater than an earlier one, and a reused seq value. -/
theorem seq_reused_after_wraparound :
    seqIssued (2 ^ 64) = seqIssued 0 ∧ seqIssued 0 = 0 ∧ 0 < 2 ^ 64 := by
  refine ⟨?_, rfl, ?_⟩
  · rw [seqIssued_eq, seqIssued_eq, Nat.mod_self, Nat.zero_mod]
  · positivity

/-- Claim C5 (amended): within one client's lifetime, the seq values
issued by `next_request_id` (and stamped by `request`) are strictly
increasing — hence never reused — as long as fewer than `2 ^ 64` calls
are made; the `AtomicU64` wraps after that. -/
theorem seq_strictly_increasing_below_wrap (i j : Nat) (hij : i < j)
    (hj : j < 2 ^ 64) : seqIssued i < seqIssued j := by
  rw [seqIssued_eq, seqIssued_eq, Nat.mod_eq_of_lt (lt_trans hij hj),
    Nat.mod_eq_of_lt hj]
  exact hij

/-- Witness for the amended C5 theorem: calls 0 and 1. -/
theorem seq_strictly_increasing_below_wrap_witness :
    0 < 1 ∧ 1 < 2 ^ 64 ∧ seqIssued 0 < seqIssued 1 :=
  ⟨by norm_num, by norm_num,
   seq_strictly_increasing_below_wrap 0 1 (by norm_num) (by norm_num)⟩

/-- Claim C6: the router relay dispatches every payload pulled from the
Transport's inbound receiver by kind — `Event` and `Request` payloads go
unmodified to the application-facing queue, `Response` payloads go to
the Transport's outbound sender — and no payload is dropped or sent to
both destinations (the two outputs partition the input). -/
theorem handle_recv_partitions_payloads (ps : List Payload) :
    handle_recv ps =
      (ps.filter (fun p => !p.isResponse),
       ps.filter (fun p => p.isResponse)) ∧
    (handle_recv ps).1.length + (handle_recv ps).2.length = ps.length :=
  ⟨handle_recv_eq_filter ps, handle_recv_length ps⟩

/-- Claim C7: the events the caller-supplied handler receives, through
the router relay and the event-consumption loop, form an initial segment
of the arrivals' events in exactly their wire arrival order — no two
payloads are ever reordered relative to arrival. -/
theorem delivered_events_follow_arrival_order (ps : List Payload) :
    deliveredEvents ps <+: eventsOf ps := by
  induction ps with
  | nil => exact List.nil_prefix
  | cons p rest ih =>
    cases p with
    | event e =>
      rw [deliveredEvents_cons_event]
      obtain ⟨t, ht⟩ := ih
      exact ⟨t, by simp [eventsOf, Payload.getEvent] at ht ⊢; exact ht⟩
    | response r =>
      rw [deliveredEvents_cons_response]
      simpa [eventsOf, Payload.getEvent] using ih
    | request r =>
      rw [deliveredEvents_cons_request]
      exact List.nil_prefix

/-- Claim C8: a non-`Event` payload reaching the event-consumption loop
hits the `unreachable!()` branch — a hard panic, not a silent drop — and
the handler is only ever invoked on the `Event` payloads of the
queue's event-only initial segment. -/
theorem non_event_payload_panics_loop (queue : List Payload)
    (h : ∃ p ∈ queue, p.isEvent = false) :
    (handle_events queue).1 = true ∧
    (handle_events queue).2 =
      (queue.takeWhile Payload.isEvent).filterMap Payload.getEvent := by
  induction queue with
  | nil => simp at h
  | cons p rest ih =>
    cases p with
    | event e =>
      have hrest : ∃ p ∈ rest, p.isEvent = false := by
        obtain ⟨q, hq, hq2⟩ := h
        cases hq with
        | head => simp [Payload.isEvent] at hq2
        | tail _ hmem => exact ⟨q, hmem, hq2⟩
      obtain ⟨ih1, ih2⟩ := ih hrest
      rw [handle_events_cons_event]
      constructor
      · exact ih1
      · simp [Payload.isEvent, Payload.getEvent, List.takeWhile_cons, ih2]
    | request r =>
      rw [handle_events_cons_request]
      constructor
      · rfl
      · simp [Payload.isEvent, List.takeWhile_cons]
    | response r =>
      rw [handle_events_cons_response]
      constructor
      · rfl
      · simp [Payload.isEvent, List.takeWhile_cons]

/-- Witness for C8: a queue holding one adapter-initiated reverse
request. -/
theorem non_event_payload_panics_loop_witness :
    (∃ p ∈ [reverseRequestPayload], p.isEvent = false) ∧
    (handle_events [reverseRequestPayload]).1 = true ∧
    (handle_events [reverseRequestPayload]).2 =
      (([reverseRequestPayload]).takeWhile Payload.isEvent).filterMap
        Payload.getEvent :=
  ⟨⟨reverseRequestPayload, List.mem_singleton.mpr rfl, rfl⟩,
   non_event_payload_panics_loop [reverseRequestPayload]
     ⟨reverseRequestPayload, List.mem_singleton.mpr rfl, rfl⟩⟩

/-- Claim C9: TCP-mode construction — if the spawn fails the error is
returned before any connect attempt; if the connect fails its error is
returned with no client value; in every case the trace shows the fixed
1000 ms delay followed by exactly one connect attempt to the configured
port, with no retry. -/
theorem create_tcp_client_failure_behavior :
    (∀ (id port : Nat) (e : String) (cr : Except String Unit),
      create_tcp_client id port (.error e) cr =
        ([.spawnProc], .error ("failed to spawn command. " ++ e))) ∧
    (∀ (id port : Nat) (e : String),
      create_tcp_client id port (.ok ()) (.error e) =
        ([.spawnProc, .delayMs 1000, .connectLoopback port], .error e)) ∧
    (∀ (id port : Nat),
      create_tcp_client id port (.ok ()) (.ok ()) =
        ([.spawnProc, .delayMs 1000, .connectLoopback port],
         .ok { id := id })) ∧
    (∀ (id port : Nat) (sp cr : Except String Unit),
      ((create_tcp_client id port sp cr).1.countP
        BootAction.isConnect) ≤ 1) := by
  refine ⟨fun _ _ _ _ => rfl, fun _ _ _ => rfl, fun _ _ => rfl, ?_⟩
  intro id port sp cr
  cases sp with
  | error e => simp [create_tcp_client, BootAction.isConnect]
  | ok u =>
    cases u
    cases cr with
    | error e => simp [create_tcp_client, BootAction.isConnect]
    | ok u2 => cases u2; simp [create_tcp_client, BootAction.isConnect]

/-- Claim C10: `update_thread_state_status` on a thread id with no entry
leaves the thread-state map entirely unchanged — it inserts nothing and
modifies no other entry, so the key set stays exactly the set of
previously inserted (adapter-reported) thread ids. -/
theorem update_unknown_thread_leaves_map_unchanged (m : ThreadStates)
    (thread_id : Nat) (status : ThreadStatus)
    (h : getThreadState m thread_id = none) :
    update_thread_state_status m thread_id status = m := by
  induction m with
  | nil => rfl
  | cons kv rest ih =>
    obtain ⟨k, ts⟩ := kv
    by_cases hk : k = thread_id
    · simp [getThreadState, hk] at h
    · rw [getThreadState] at h
      rw [if_neg hk] at h
      have hrest := ih h
      unfold update_thread_state_status at hrest ⊢
      simp only [List.map_cons]
      rw [hrest]
      simp [hk]

/-- Witness for C10: updating unseen thread 2 in a one-entry map. -/
theorem update_unknown_thread_leaves_map_unchanged_witness :
    getThreadState [(1, (default : ThreadState))] 2 = none ∧
    update_thread_state_status [(1, (default : ThreadState))] 2
        ThreadStatus.Stopped = [(1, (default : ThreadState))] :=
  ⟨rfl, update_unknown_thread_leaves_map_unchanged _ 2 ThreadStatus.Stopped rfl⟩

end DapClient
